import Mathlib

/-!
# Corporate-Os — event distribution and audit pipeline: a shallow embedding

This file embeds, in Lean 4, the parts of the Corporate-Os repository that the
event/audit pipeline claims are about, and proves (or refutes) each claim.

Embedded sources:
* `src/core/events/handlers.py` — `convert_decimal_to_float`,
  `handle_audit_persistence` (record construction and idempotent persistence);
* `src/bus_event/events/models.py` — `EventType`, `Event`;
* `src/bus_event/events/event_bus.py` — `EventBus.publish`, `EventBus._handle_sync`,
  `EventBus.subscribe`;
* `src/events/consumer.py` — `EventConsumer.callback`, `AuditEventHandler.handle`
  and the concrete audit sub-handlers;
* `src/events/publisher.py` — `BasePublisher._publish_message`, `BasePublisher.connect`,
  and the nine `AuditEventPublisher.publish_*` message constructors;
* `src/audit/service/audit_service.py` — `AuditEventService.create_event`,
  `AuditEventService.get_events`;
* `src/audit/service/audit_system.py` / `src/app/database/models.py` — the
  `AuditEvent` table (`event_id` has a UNIQUE constraint).

Python dynamic values are modelled by the `PyVal` type below; machine-level
concerns (actual JSON text, the SQLAlchemy session, pika network I/O) are
abstracted into explicit parameters (decode results, transport outcomes),
exactly at the boundary where the claims speak about them.
-/

set_option maxHeartbeats 1000000

namespace CorporateOs

/-! ## Python values

A JSON-ish dynamic value as manipulated by the Python code: `None`, booleans,
integers, `decimal.Decimal` fixed-point values, floats, strings, lists and
(string-keyed, insertion-ordered) dicts.  `Decimal` and `float` both carry an
exact rational: `float(Decimal(...))` is value-preserving on the inputs the
claims mention (e.g. `10.5`), and the claims under verification are about the
*type* conversion, not about floating-point rounding.  Lists and dicts are
separate mutual inductives so that structural recursion stays simple. -/

mutual
inductive PyVal where
  | none : PyVal
  | bool (b : Bool) : PyVal
  | int (i : Int) : PyVal
  | decimal (q : ℚ) : PyVal
  | float (q : ℚ) : PyVal
  | str (s : String) : PyVal
  | list (xs : PyList) : PyVal
  | dict (kvs : PyDict) : PyVal
  deriving DecidableEq

inductive PyList where
  | nil : PyList
  | cons (v : PyVal) (rest : PyList) : PyList
  deriving DecidableEq

inductive PyDict where
  | nil : PyDict
  | cons (k : String) (v : PyVal) (rest : PyDict) : PyDict
  deriving DecidableEq
end

/-- Python truthiness (`bool(x)`): `None`, `False`, `0`, `""` and empty
containers are falsy, everything else is truthy. -/
def pyTruthy : PyVal → Bool
  | .none => false
  | .bool b => b
  | .int i => i != 0
  | .decimal q => q != 0
  | .float q => q != 0
  | .str s => s != ""
  | .list .nil => false
  | .list _ => true
  | .dict .nil => false
  | .dict _ => true

/-- `d.get(k)`: the value stored under `k`, or `None` when absent
(first binding wins, as in a Python dict built without duplicate keys). -/
def PyDict.get : PyDict → String → PyVal
  | .nil, _ => .none
  | .cons k v rest, key => if k = key then v else rest.get key

/-- `d.get(k, default)`. -/
def PyDict.getD : PyDict → String → PyVal → PyVal
  | .nil, _, dflt => dflt
  | .cons k v rest, key, dflt => if k = key then v else rest.getD key dflt

/-- Python `a or b`: `a` when `a` is truthy, else `b`. -/
def pyOr (a b : PyVal) : PyVal := if pyTruthy a then a else b

/-! ## `convert_decimal_to_float` (src/core/events/handlers.py, lines 17–26)

```python
def convert_decimal_to_float(obj):
    if isinstance(obj, Decimal):
        return float(obj)
    elif isinstance(obj, dict):
        return {key: convert_decimal_to_float(value) for key, value in obj.items()}
    elif isinstance(obj, list):
        return [convert_decimal_to_float(item) for item in obj]
    else:
        return obj
```
-/

mutual
def convert_decimal_to_float : PyVal → PyVal
  | .decimal q => .float q
  | .dict kvs => .dict (convertDict kvs)
  | .list xs => .list (convertList xs)
  | v => v

def convertDict : PyDict → PyDict
  | .nil => .nil
  | .cons k v rest => .cons k (convert_decimal_to_float v) (convertDict rest)

def convertList : PyList → PyList
  | .nil => .nil
  | .cons v rest => .cons (convert_decimal_to_float v) (convertList rest)
end

mutual
/-- `true` when the value contains no `Decimal` anywhere (leaves or nested). -/
def decimalFree : PyVal → Bool
  | .decimal _ => false
  | .dict kvs => decimalFreeDict kvs
  | .list xs => decimalFreeList xs
  | _ => true

def decimalFreeDict : PyDict → Bool
  | .nil => true
  | .cons _ v rest => decimalFree v && decimalFreeDict rest

def decimalFreeList : PyList → Bool
  | .nil => true
  | .cons v rest => decimalFree v && decimalFreeList rest
end

/-! ## In-process events (src/bus_event/events/models.py)

`EventType` is the closed enumeration of event kinds of the in-process bus;
`Event` carries an id (UUID assigned at construction), a kind, a payload dict
and a metadata dict (both default to `{}`).  The timestamp and source fields
are carried opaquely; no embedded code reads them. -/

inductive EventType where
  | user_login | user_logout | shareholder_created | shareholder_updated
  | share_issued | certificate_generated | system_error | audit_log | notification
  deriving DecidableEq

/-- The `.value` string of each `EventType` member. -/
def EventType.value : EventType → String
  | .user_login => "user.login"
  | .user_logout => "user.logout"
  | .shareholder_created => "shareholder.created"
  | .shareholder_updated => "shareholder.updated"
  | .share_issued => "share.issued"
  | .certificate_generated => "certificate.generated"
  | .system_error => "system.error"
  | .audit_log => "audit.log"
  | .notification => "notification"

structure Event where
  id : String
  type : EventType
  payload : PyDict
  metadata : PyDict
  timestamp : Int
  source : PyVal
  deriving DecidableEq

/-! ## `handle_audit_persistence` (src/core/events/handlers.py, lines 94–157)

The handler builds an `AuditEvent` row from the decoded event and inserts it;
the `event_id` column carries a UNIQUE constraint
(src/app/database/models.py line 98), so a duplicate insert raises
`IntegrityError` at commit, which the handler's blanket `except` turns into a
logged failure and `return False`, leaving the store unchanged. -/

/-- A stored `audit_events` row.  `id` and `created_at` are database-assigned
(surrogate key, insert timestamp); the remaining columns are written by the
code under verification.  Column values that the Python code computes
dynamically are carried as `PyVal`. -/
structure AuditRow where
  id : Int
  event_type : String
  event_id : String
  user_id : PyVal
  user_email : PyVal
  user_role : PyVal
  resource_type : PyVal
  resource_id : PyVal
  action : PyVal
  description : PyVal
  event_data : PyVal
  previous_data : PyVal
  created_at : Int
  processed_at : PyVal
  status : String
  deriving DecidableEq

/-- The `action_mapping` lookup with default `"unknown"`:
`action_mapping.get(event.type.value, "unknown")`.  `AUDIT_LOG` has no entry in
the mapping, so it falls to the default. -/
def actionMappingGetD : EventType → String
  | .user_login => "login"
  | .user_logout => "logout"
  | .shareholder_created => "create"
  | .shareholder_updated => "update"
  | .share_issued => "create"
  | .certificate_generated => "generate"
  | .system_error => "error"
  | .notification => "notification"
  | .audit_log => "unknown"

/-- One actor/resource field of the constructed row, transcribing

```python
payload.get(key) or metadata.get(key) if metadata else None
```

which Python parses as
`(payload.get(key) or metadata.get(key)) if metadata else None`:
the conditional expression binds loosest, so when `metadata` is falsy (the
empty dict) the whole expression is `None`, regardless of the payload. -/
def extractActorField (payload metadata : PyDict) (key : String) : PyVal :=
  if pyTruthy (.dict metadata) then pyOr (payload.get key) (metadata.get key)
  else .none

/-- What the hand-written fallback chain
`payload.get(key) or (metadata.get(key) if metadata else None)` — the
spec's words "either may supply them, payload takes precedence" — would
compute.  Kept separate to compare with `extractActorField`, the transcription
of the source. -/
def specActorField (payload metadata : PyDict) (key : String) : PyVal :=
  pyOr (payload.get key) (if pyTruthy (.dict metadata) then metadata.get key else .none)

/-- The row `handle_audit_persistence` constructs from the decoded event.
`rowId`/`createdAt` stand for the database-assigned surrogate key and insert
timestamp, `nowTs` for `datetime.utcnow()` written into `processed_at`. -/
def buildAuditRow (e : Event) (rowId createdAt : Int) (nowTs : PyVal) : AuditRow :=
  let payload := e.payload
  let metadata := e.metadata
  { id := rowId
    event_type := e.type.value
    event_id := e.id
    user_id := extractActorField payload metadata "user_id"
    user_email := extractActorField payload metadata "user_email"
    user_role := extractActorField payload metadata "user_role"
    resource_type := extractActorField payload metadata "resource_type"
    resource_id := extractActorField payload metadata "resource_id"
    action := pyOr (payload.get "action") (.str (actionMappingGetD e.type))
    description := extractActorField payload metadata "description"
    event_data := convert_decimal_to_float (.dict payload)
    previous_data :=
      if pyTruthy (payload.get "previous_data") then
        convert_decimal_to_float (payload.get "previous_data")
      else .none
    created_at := createdAt
    processed_at := nowTs
    status := "processed" }

/-- `db.add(row); db.commit()` against the UNIQUE constraint on `event_id`:
a conflicting insert raises `IntegrityError` and the transaction is discarded
(the store is unchanged); otherwise the row is appended. -/
def insertAuditRow (db : List AuditRow) (row : AuditRow) : List AuditRow × Bool :=
  if db.any (fun r => r.event_id = row.event_id) then (db, false)
  else (db ++ [row], true)

/-- `handle_audit_persistence`: build the row and insert it; the blanket
`except` turns the `IntegrityError` of a duplicate `event_id` into
`return False` (no exception reaches the event bus), and the successful path
returns `True`.  Result: (store afterwards, returned boolean). -/
def handle_audit_persistence (db : List AuditRow) (e : Event)
    (rowId createdAt : Int) (nowTs : PyVal) : List AuditRow × Bool :=
  insertAuditRow db (buildAuditRow e rowId createdAt nowTs)

/-! ## `AuditEventService.create_event` (src/audit/service/audit_service.py, lines 20–34)

```python
async def create_event(self, event_data: dict) -> AuditEvent:
    if 'event_id' not in event_data:
        event_data['event_id'] = str(uuid4())
    event = AuditEvent(**event_data)
    self.db.add(event)
    try:
        await self.db.commit()
        await self.db.refresh(event)
        return event
    except IntegrityError as e:
        await self.db.rollback()
        raise AuditEventError(f"Création échouée: {e}")
```
-/

/-- The `event_data` dict passed to `create_event`: every writable column,
with `event_id` optional (defaulted to a fresh UUID when absent). -/
structure CreateEventInput where
  event_id : Option String
  event_type : String
  user_id : PyVal
  user_email : PyVal
  user_role : PyVal
  resource_type : PyVal
  resource_id : PyVal
  action : PyVal
  description : PyVal
  event_data : PyVal
  previous_data : PyVal
  processed_at : PyVal
  status : String
  deriving DecidableEq

/-- The `event_id` `create_event` ends up inserting:
`if 'event_id' not in event_data: event_data['event_id'] = str(uuid4())`. -/
def effectiveEventId (ed : CreateEventInput) (freshUuid : String) : String :=
  match ed.event_id with | some s => s | none => freshUuid

/-- `create_event`: default the `event_id`, insert, and on `IntegrityError`
roll back and raise `AuditEventError` (modelled as `Except.error`); the store
component is the store after the call (unchanged on the error path). -/
def create_event (db : List AuditRow) (ed : CreateEventInput)
    (freshUuid : String) (rowId createdAt : Int) :
    List AuditRow × Except String AuditRow :=
  let eid := effectiveEventId ed freshUuid
  let row : AuditRow :=
    { id := rowId, event_type := ed.event_type, event_id := eid
      user_id := ed.user_id, user_email := ed.user_email, user_role := ed.user_role
      resource_type := ed.resource_type, resource_id := ed.resource_id
      action := ed.action, description := ed.description
      event_data := ed.event_data, previous_data := ed.previous_data
      created_at := createdAt, processed_at := ed.processed_at, status := ed.status }
  match insertAuditRow db row with
  | (db2, true) => (db2, .ok row)
  | (_, false) => (db, .error "Création échouée: IntegrityError")

/-! ## `AuditEventService.get_events` (src/audit/service/audit_service.py, lines 50–79)

```python
async def get_events(self, filters=None, skip=0, limit=100,
                     order_by="created_at", order_desc=True):
    query = select(AuditEvent)
    if filters:
        conditions = []
        for key, value in filters.items():
            if hasattr(AuditEvent, key) and value is not None:
                if isinstance(value, list):
                    conditions.append(getattr(AuditEvent, key).in_(value))
                else:
                    conditions.append(getattr(AuditEvent, key) == value)
        if conditions:
            query = query.where(and_(*conditions))
    order_col = getattr(AuditEvent, order_by, AuditEvent.created_at)
    query = query.order_by(desc(order_col) if order_desc else asc(order_col))
    result = await self.db.execute(query.offset(skip).limit(limit))
    return list(result.scalars().all())
```

The SQL backend is modelled relationally: the store is a list of rows,
`WHERE` is `List.filter`, `ORDER BY` is a (stable) insertion sort under a
total comparison per column, `OFFSET`/`LIMIT` are `drop`/`take`.  The
collation SQL uses for the non-timestamp columns is backend-defined; the
model fixes one executable total order (`pyLe`) for them — the claims under
verification only constrain the pagination, the `created_at` ordering and the
column-resolution behaviour, none of which depend on that choice.

Attribute lookup on the class (`hasattr`/`getattr`) distinguishes three
outcomes, because the declarative `AuditEvent` class owns more than its
mapped columns: a **mapped column** (ordering and filtering work), a
**non-column attribute** (`metadata`, `registry`, `__tablename__`,
`__table__`, `__repr__`, the `object` dunders, …) which `getattr` *does*
find — so the `created_at` default never fires, and `desc()`/`asc()` on the
found object raises (or, for a plain string like `__tablename__`, the query
orders by a nonexistent label and fails at execution) — and an **absent**
name, for which `getattr`'s third argument supplies `created_at` and
`hasattr` is false.  A call that hits a raising path is an `Except.error`. -/

/-- The mapped columns of `AuditEvent` (its ORM column attributes). -/
inductive Col where
  | id | event_type | event_id | user_id | user_email | user_role
  | resource_type | resource_id | action | description
  | event_data | previous_data | created_at | processed_at | status
  deriving DecidableEq

/-- The mapped column a name stands for, or `none` for a name that is no
column (which, on the class, may still be a non-column attribute — see
`getattrAuditEvent`). -/
def resolveCol : String → Option Col
  | "id" => some .id
  | "event_type" => some .event_type
  | "event_id" => some .event_id
  | "user_id" => some .user_id
  | "user_email" => some .user_email
  | "user_role" => some .user_role
  | "resource_type" => some .resource_type
  | "resource_id" => some .resource_id
  | "action" => some .action
  | "description" => some .description
  | "event_data" => some .event_data
  | "previous_data" => some .previous_data
  | "created_at" => some .created_at
  | "processed_at" => some .processed_at
  | "status" => some .status
  | _ => none

/-- The non-column attributes of the declarative `AuditEvent` class: the
class-body names that are no `Column` (`__tablename__`, `__table_args__`,
`__repr__`, the docstring), the declarative machinery (`metadata`,
`registry`, `__table__`, `__mapper__`, `__init__`), and the `object`
dunders.  `hasattr(AuditEvent, name)` is true for these, and
`getattr(AuditEvent, name, default)` returns the attribute, not the
default. -/
def nonColumnAttrs : List String :=
  ["metadata", "registry", "__tablename__", "__table__", "__table_args__",
   "__mapper__", "__init__", "__repr__", "__doc__", "__module__", "__dict__",
   "__weakref__", "__class__", "__str__", "__hash__", "__eq__", "__ne__",
   "__new__", "__setattr__", "__getattribute__", "__delattr__", "__dir__",
   "__sizeof__", "__reduce__", "__reduce_ex__", "__format__",
   "__init_subclass__", "__subclasshook__"]

/-- What attribute lookup on the `AuditEvent` class finds under a name. -/
inductive AttrLookup where
  | column (c : Col)
  | nonColumn
  | absent
  deriving DecidableEq

/-- `getattr(AuditEvent, name)` / `hasattr(AuditEvent, name)`: a mapped
column, a non-column class attribute, or nothing (`hasattr` false,
`getattr`'s default fires). -/
def getattrAuditEvent (name : String) : AttrLookup :=
  match resolveCol name with
  | some c => .column c
  | none => if nonColumnAttrs.contains name then .nonColumn else .absent

/-- The Python value of a non-column class attribute, where it is a plain
string a filter value could equal under `==`: the class body fixes
`__tablename__` and the docstring.  The remaining attributes are framework
objects or methods, whose default identity comparison with a JSON filter
value is `False` (`none` here); `__module__` is a string too, but its value
depends on the import root, and the model keeps it with the incomparable
ones. -/
def classAttrValue (name : String) : Option PyVal :=
  if name = "__tablename__" then some (.str "audit_events")
  else if name = "__doc__" then
    some (.str "Modèle pour stocker les événements d'audit")
  else none

/-- The value a row holds in a column, as a dynamic value. -/
def colVal (c : Col) (r : AuditRow) : PyVal :=
  match c with
  | .id => .int r.id
  | .event_type => .str r.event_type
  | .event_id => .str r.event_id
  | .user_id => r.user_id
  | .user_email => r.user_email
  | .user_role => r.user_role
  | .resource_type => r.resource_type
  | .resource_id => r.resource_id
  | .action => r.action
  | .description => r.description
  | .event_data => r.event_data
  | .previous_data => r.previous_data
  | .created_at => .int r.created_at
  | .processed_at => r.processed_at
  | .status => .str r.status

def PyList.length : PyList → Nat
  | .nil => 0
  | .cons _ rest => rest.length + 1

def PyDict.length : PyDict → Nat
  | .nil => 0
  | .cons _ _ rest => rest.length + 1

/-- A rank separating the value shapes, for the model's total collation. -/
def pyRank : PyVal → Nat
  | .none => 0
  | .bool _ => 1
  | .int _ => 2
  | .decimal _ => 3
  | .float _ => 4
  | .str _ => 5
  | .list _ => 6
  | .dict _ => 7

/-- The model's total collation on dynamic values: `NULL` first, then by
shape rank, values of equal shape by their natural order (containers by
size).  Total and transitive; its details beyond `.int` are the model's
choice for the backend-defined cases. -/
def pyLe (a b : PyVal) : Bool :=
  match a, b with
  | .bool x, .bool y => !x || y
  | .int x, .int y => decide (x ≤ y)
  | .decimal x, .decimal y => decide (x ≤ y)
  | .float x, .float y => decide (x ≤ y)
  | .str x, .str y => decide (x ≤ y)
  | .list x, .list y => decide (x.length ≤ y.length)
  | .dict x, .dict y => decide (x.length ≤ y.length)
  | x, y => decide (pyRank x ≤ pyRank y)

/-- `ORDER BY col ASC`/`DESC` as a Boolean comparison on rows. -/
def colLeB (c : Col) (descOrder : Bool) (a b : AuditRow) : Bool :=
  if descOrder then pyLe (colVal c b) (colVal c a) else pyLe (colVal c a) (colVal c b)

/-- SQL `=` under the model: a `NULL` on either side compares false,
otherwise structural equality of the dynamic values. -/
def sqlEq (a b : PyVal) : Bool :=
  match a, b with
  | .none, _ => false
  | _, .none => false
  | x, y => decide (x = y)

/-- One condition of the `WHERE` clause: a column `IN (list)`, a column
`= value`, or — when the filter key named a non-column class attribute — the
plain Python boolean `getattr(AuditEvent, key) == value` appended verbatim
(SQLAlchemy coerces it to `true()`/`false()`). -/
inductive FilterCond where
  | colIn (c : Col) (vs : PyList)
  | colEq (c : Col) (v : PyVal)
  | const (b : Bool)
  deriving DecidableEq

/-- One iteration of the condition-building loop:
`if hasattr(AuditEvent, key) and value is not None:` then `.in_(value)` for
a list, `== value` otherwise.  `none` means no condition was appended.  On a
non-column attribute a list value raises (`.in_` is no attribute of the
found object) and a scalar value compares by plain `==`: string-valued
attributes compare by content, the rest by identity (false against any JSON
value). -/
def condOfPair (key : String) (v : PyVal) : Except String (Option FilterCond) :=
  match getattrAuditEvent key with
  | .absent => .ok none
  | .column c =>
    if v = PyVal.none then .ok none
    else match v with
      | .list vs => .ok (some (.colIn c vs))
      | _ => .ok (some (.colEq c v))
  | .nonColumn =>
    if v = PyVal.none then .ok none
    else match v with
      | .list _ => .error "AttributeError: object has no attribute in_"
      | _ => .ok (some (.const (match classAttrValue key with
          | some av => decide (av = v)
          | none => false)))

/-- The `for key, value in filters.items()` loop, building the condition
list in the dict's order; the first raising iteration aborts the call. -/
def buildConds : List (String × PyVal) → Except String (List FilterCond)
  | [] => .ok []
  | (k, v) :: rest =>
    match condOfPair k v with
    | .error e => .error e
    | .ok c =>
      match buildConds rest with
      | .error e => .error e
      | .ok cs =>
        match c with
        | some fc => .ok (fc :: cs)
        | none => .ok cs

/-- Whether a row satisfies one condition. -/
def condHolds (r : AuditRow) : FilterCond → Bool
  | .colIn c vs => go (colVal c r) vs
  | .colEq c v => sqlEq (colVal c r) v
  | .const b => b
where go (x : PyVal) : PyList → Bool
  | .nil => false
  | .cons v rest => sqlEq x v || go x rest

/-- `order_col = getattr(AuditEvent, order_by, AuditEvent.created_at)`
followed by `desc(order_col)`/`asc(order_col)`: a mapped column orders by
that column; an absent name falls back to `created_at`; a non-column
attribute is found by `getattr` (the default never fires) and the call then
fails — `desc()` raises on a framework object or method, and a plain string
orders by a nonexistent label and fails at execution. -/
def orderColE (name : String) : Except String Col :=
  match getattrAuditEvent name with
  | .column c => .ok c
  | .absent => .ok .created_at
  | .nonColumn => .error "ArgumentError: ORDER BY expected a column expression"

/-- `get_events`: build the filter conditions, filter, resolve the ordering
column, sort, then `OFFSET skip LIMIT limit`.  A raising path (a list filter
on a non-column attribute, or ordering by a non-column attribute) propagates
to the caller as `Except.error`. -/
def get_events (rs : List AuditRow) (filters : List (String × PyVal))
    (skip limit : Nat) (order_by : String) (order_desc : Bool) :
    Except String (List AuditRow) :=
  match buildConds filters with
  | .error e => .error e
  | .ok conds =>
    let filtered := rs.filter fun r => conds.all (condHolds r)
    match orderColE order_by with
    | .error e => .error e
    | .ok oc =>
      let sorted := List.insertionSort
        (fun a b => colLeB oc order_desc a b = true) filtered
      .ok ((sorted.drop skip).take limit)

/-! ## `EventBus` (src/bus_event/events/event_bus.py)

Handlers are identified by an id (a natural number); their behaviour is a
separate parameter `hbeh : Nat → Event → HandlerRes`, so that an execution can
be quantified over arbitrary handler bodies, including ones that raise.
`subscribe` appends to the per-kind list (registration order);
`_handle_sync` runs the synchronous list front to back, wrapping **each**
call in its own `try/except` (an exception is logged and the loop continues);
`publish` runs `_handle_sync`, enqueues for the asynchronous path, and
returns `True` — its own `try/except` never observes a handler exception
because `_handle_sync` already caught it. -/

/-- What one handler call does: return a value, or raise. -/
inductive HandlerRes where
  | ret (v : PyVal) : HandlerRes
  | exn (msg : String) : HandlerRes
  deriving DecidableEq

/-- The bus registry: per event kind, the ordered synchronous and
asynchronous handler lists. -/
structure Bus where
  sync : EventType → List Nat
  async : EventType → List Nat

def emptyBus : Bus := ⟨fun _ => [], fun _ => []⟩

/-- `subscribe(event_type, handler, async_handler)`: append to the matching
list (a `defaultdict(list)` plus `append`). -/
def subscribe (bus : Bus) (et : EventType) (h : Nat) (asyncHandler : Bool) : Bus :=
  if asyncHandler then
    { bus with async := fun t => if t = et then bus.async t ++ [h] else bus.async t }
  else
    { bus with sync := fun t => if t = et then bus.sync t ++ [h] else bus.sync t }

/-- One registration call, as data: kind, handler id, async flag. -/
structure Sub where
  kind : EventType
  handler : Nat
  isAsync : Bool

/-- A sequence of `subscribe` calls made in order. -/
def registerAll (bus : Bus) (subs : List Sub) : Bus :=
  subs.foldl (fun b s => subscribe b s.kind s.handler s.isAsync) bus

/-- The synchronous handler ids a registration sequence leaves under kind
`t`, in registration order (the specification-side recompute the bus theorem
compares the dispatch trace against). -/
def syncRegistered (t : EventType) (subs : List Sub) : List Nat :=
  (subs.filter fun s => s.kind = t ∧ s.isAsync = false).map (·.handler)

/-- The `for handler in handlers` loop of `_handle_sync`: every iteration
calls its handler and catches whatever it raises (`HandlerRes.exn` is
absorbed into the trace entry, never re-raised), so the loop always reaches
the next handler.  The result is the dispatch trace: which handler ran, and
what its call did. -/
def handleSyncLoop (hbeh : Nat → Event → HandlerRes) (e : Event) :
    List Nat → List (Nat × HandlerRes)
  | [] => []
  | h :: rest => (h, hbeh h e) :: handleSyncLoop hbeh e rest

/-- `_handle_sync`: run the loop over the synchronous handlers registered for
the event's kind. -/
def handleSync (hbeh : Nat → Event → HandlerRes) (bus : Bus) (e : Event) :
    List (Nat × HandlerRes) :=
  handleSyncLoop hbeh e (bus.sync e.type)

/-- `publish`: run the synchronous handlers, enqueue for the asynchronous
worker when async handlers exist, return `True` (accepted).  `_handle_sync`
catches every handler exception itself, so `publish`'s own `except` branch
(returning `False`) is unreachable for handler failures; the enqueue is
modelled as succeeding.  Result: (returned boolean, synchronous dispatch
trace). -/
def publish (hbeh : Nat → Event → HandlerRes) (bus : Bus) (e : Event) :
    Bool × List (Nat × HandlerRes) :=
  (true, handleSync hbeh bus e)

/-! ## Broker consumer (src/events/consumer.py) and publisher (src/events/publisher.py)

Both modules share `EventTypeEnum`; the repository's one definition of that
enum is `src/bus_event/event_type.py` (the `core.event_type` import path the
two modules name contains no such symbol), and publisher and consumer import
the same symbol, so one enum embeds both sides. -/

inductive EventTypeEnum where
  | user_login | user_logout | shareholder_created | shareholder_updated
  | share_issued | certificate_generated | permission_changed | data_export
  | system_error
  deriving DecidableEq

def EventTypeEnum.value : EventTypeEnum → String
  | .user_login => "user_login"
  | .user_logout => "user_logout"
  | .shareholder_created => "shareholder_created"
  | .shareholder_updated => "shareholder_updated"
  | .share_issued => "share_issued"
  | .certificate_generated => "certificate_generated"
  | .permission_changed => "permission_changed"
  | .data_export => "data_export"
  | .system_error => "system_error"

/-- `[e.value for e in EventTypeEnum]`. -/
def enumValues : List String :=
  [EventTypeEnum.user_login, .user_logout, .shareholder_created, .shareholder_updated,
   .share_issued, .certificate_generated, .permission_changed, .data_export,
   .system_error].map EventTypeEnum.value

/-- `event_type in [e.value for e in EventTypeEnum]` on a decoded value:
only a string equal to one of the enum values passes. -/
def isKnownEventType (v : PyVal) : Bool :=
  match v with
  | .str s => enumValues.contains s
  | _ => false

/-- `AuditEventHandler.handle_shareholder_created`: the one audit sub-handler
whose body can raise inside its own `try` —
`payload.get('shareholder_data', {})` followed by `.get('username')` raises
`AttributeError` unless the value is a dict, and the sub-handler's `except`
then returns `False`.  Every other audit sub-handler only reads payload keys
and logs, and returns `True`. -/
def handleShareholderCreated (p : PyDict) : Bool :=
  match p.getD "shareholder_data" (.dict .nil) with
  | .dict _ => true
  | _ => false

/-- `AuditEventHandler.handle(payload, event_id)`: dispatch on the
**payload's** `event_type` key to a sub-handler; an unrecognised value is
logged and `False` is returned.  `payload.get` on a non-dict payload raises.
`event_id` is only passed along, never read. -/
def auditHandle (payload _eventId : PyVal) : Except String Bool :=
  match payload with
  | .dict p =>
    let et := p.get "event_type"
    if et = .str EventTypeEnum.user_login.value then .ok true
    else if et = .str EventTypeEnum.user_logout.value then .ok true
    else if et = .str EventTypeEnum.shareholder_created.value then
      .ok (handleShareholderCreated p)
    else if et = .str EventTypeEnum.shareholder_updated.value then .ok true
    else if et = .str EventTypeEnum.share_issued.value then .ok true
    else if et = .str EventTypeEnum.certificate_generated.value then .ok true
    else if et = .str EventTypeEnum.permission_changed.value then .ok true
    else if et = .str EventTypeEnum.data_export.value then .ok true
    else if et = .str EventTypeEnum.system_error.value then .ok true
    else .ok false
  | _ => .error "AttributeError: payload has no attribute get"

/-- `NotificationEventHandler.handle`: dispatch on `notification_type`;
the three recognised sub-handlers only read and log (`True`), anything else
returns `False`. -/
def notificationHandle (payload _eventId : PyVal) : Except String Bool :=
  match payload with
  | .dict p =>
    let nt := p.get "notification_type"
    if nt = .str "share_issuance" then .ok true
    else if nt = .str "certificate_generated" then .ok true
    else if nt = .str "system_alert" then .ok true
    else .ok false
  | _ => .error "AttributeError: payload has no attribute get"

/-- `SystemEventHandler.handle`: dispatch on `event`; the two recognised
sub-handlers only read and log (`True`), anything else returns `False`. -/
def systemHandle (payload _eventId : PyVal) : Except String Bool :=
  match payload with
  | .dict p =>
    let ev := p.get "event"
    if ev = .str "application_startup" then .ok true
    else if ev = .str "database_backup" then .ok true
    else .ok false
  | _ => .error "AttributeError: payload has no attribute get"

/-- The acknowledgement operations the callback can issue on the channel. -/
inductive ChOp where
  | ack
  | nackRequeue
  deriving DecidableEq

/-- The three routing categories of `EventConsumer.callback`. -/
inductive Category where
  | audit | notif | system
  deriving DecidableEq

/-- How the callback classifies a decoded top-level `event_type`:
domain-event values go to the audit handler, `"notification"` and `"system"`
to theirs, anything else is unrecognised (`none`). -/
def categoryOf (etype : PyVal) : Option Category :=
  if isKnownEventType etype then some .audit
  else if etype = .str "notification" then some .notif
  else if etype = .str "system" then some .system
  else none

/-- The handler a category dispatches to, drawn from the three instance
attributes of the consumer (parameters here, so executions can be quantified
over arbitrary handler behaviour, as the repository's own tests do when they
patch them). -/
def handlerFor (c : Category) (ah nh sh : PyVal → PyVal → Except String Bool) :
    PyVal → PyVal → Except String Bool :=
  match c with
  | .audit => ah
  | .notif => nh
  | .system => sh

/-- The body of `callback` after a successful `json.loads`: read
`event_type`, `payload` (default `{}`) and `event_id` off the message, route
by category, and compute `success` (`True` outright for an unrecognised
`event_type`).  `message.get` on a non-dict decode raises. -/
def callbackRoute (ah nh sh : PyVal → PyVal → Except String Bool) (m : PyVal) :
    Except String Bool :=
  match m with
  | .dict msg =>
    let etype := msg.get "event_type"
    let payload := msg.getD "payload" (.dict .nil)
    let eid := msg.get "event_id"
    match categoryOf etype with
    | some c => handlerFor c ah nh sh payload eid
    | none => .ok true
  | _ => .error "AttributeError: message has no attribute get"

/-- `EventConsumer.callback`: on `success` acknowledge, on `not success`
negatively acknowledge with requeue, and the blanket `except` (decode
failure, or a handler exception) also negatively acknowledges with requeue.
The result lists the channel operations issued for the delivery. -/
def callback (ah nh sh : PyVal → PyVal → Except String Bool)
    (decoded : Except String PyVal) : List ChOp :=
  match decoded with
  | .error _ => [.nackRequeue]
  | .ok m =>
    match callbackRoute ah nh sh m with
    | .ok true => [.ack]
    | .ok false => [.nackRequeue]
    | .error _ => [.nackRequeue]

/-- The consumer as constructed (`self.audit_handler = AuditEventHandler()`,
etc.): `callback` with the three concrete handlers. -/
def consumerCallback (decoded : Except String PyVal) : List ChOp :=
  callback auditHandle notificationHandle systemHandle decoded

/-! ### The nine `AuditEventPublisher.publish_*` wire messages

Each constructor builds
`{"event_id": uuid, "event_type": <enum value>, "timestamp": ts, "payload": {...}}`
— `event_type` at the top level only, never inside the payload.  `uuid`/`ts`
stand for `str(uuid.uuid4())` and `datetime.utcnow().isoformat()`. -/

def wireMessage (uuid : String) (etype : EventTypeEnum) (ts : String)
    (payload : PyDict) : PyVal :=
  .dict (.cons "event_id" (.str uuid)
    (.cons "event_type" (.str etype.value)
      (.cons "timestamp" (.str ts)
        (.cons "payload" (.dict payload) .nil))))

def publishUserLoginMsg (uuid ts user_id user_email user_role : String)
    (ip_address user_agent : PyVal) : PyVal :=
  wireMessage uuid .user_login ts
    (.cons "user_id" (.str user_id)
      (.cons "user_email" (.str user_email)
        (.cons "user_role" (.str user_role)
          (.cons "ip_address" ip_address
            (.cons "user_agent" user_agent .nil)))))

def publishUserLogoutMsg (uuid ts user_id user_email : String)
    (session_duration : PyVal) : PyVal :=
  wireMessage uuid .user_logout ts
    (.cons "user_id" (.str user_id)
      (.cons "user_email" (.str user_email)
        (.cons "session_duration" session_duration .nil)))

def publishShareholderCreatedMsg (uuid ts user_id : String)
    (shareholder_data : PyDict) : PyVal :=
  wireMessage uuid .shareholder_created ts
    (.cons "user_id" (.str user_id)
      (.cons "shareholder_data" (.dict shareholder_data) .nil))

def publishShareholderUpdatedMsg (uuid ts user_id shareholder_id : String)
    (previous_data new_data : PyDict) : PyVal :=
  wireMessage uuid .shareholder_updated ts
    (.cons "user_id" (.str user_id)
      (.cons "shareholder_id" (.str shareholder_id)
        (.cons "previous_data" (.dict previous_data)
          (.cons "new_data" (.dict new_data) .nil))))

def publishShareIssuedMsg (uuid ts user_id shareholder_id : String)
    (share_data : PyDict) : PyVal :=
  wireMessage uuid .share_issued ts
    (.cons "user_id" (.str user_id)
      (.cons "shareholder_id" (.str shareholder_id)
        (.cons "share_data" (.dict share_data) .nil)))

def publishCertificateGeneratedMsg (uuid ts user_id shareholder_id certificate_path : String) :
    PyVal :=
  wireMessage uuid .certificate_generated ts
    (.cons "user_id" (.str user_id)
      (.cons "shareholder_id" (.str shareholder_id)
        (.cons "certificate_path" (.str certificate_path) .nil)))

def publishPermissionChangedMsg (uuid ts admin_user_id target_user_id old_role new_role : String) :
    PyVal :=
  wireMessage uuid .permission_changed ts
    (.cons "admin_user_id" (.str admin_user_id)
      (.cons "target_user_id" (.str target_user_id)
        (.cons "old_role" (.str old_role)
          (.cons "new_role" (.str new_role) .nil))))

def publishDataExportMsg (uuid ts user_id export_type export_format : String)
    (record_count : Int) : PyVal :=
  wireMessage uuid .data_export ts
    (.cons "user_id" (.str user_id)
      (.cons "export_type" (.str export_type)
        (.cons "export_format" (.str export_format)
          (.cons "record_count" (.int record_count) .nil))))

def publishSystemErrorMsg (uuid ts error_type error_message : String)
    (stack_trace : PyVal) : PyVal :=
  wireMessage uuid .system_error ts
    (.cons "error_type" (.str error_type)
      (.cons "error_message" (.str error_message)
        (.cons "stack_trace" stack_trace .nil)))

/-! ## `BasePublisher._publish_message` (src/events/publisher.py, lines 97–127)

The transport outcomes (whether the lazy reconnect succeeds, whether
`basic_publish` succeeds) are the environment; `connect` re-raises its
failure (lines 51–53), and `_publish_message`'s own `try/except` catches
everything and returns `False`. -/

structure TransportEnv where
  connectSucceeds : Bool
  publishSucceeds : Bool

inductive TransportErr where
  | connectFailed
  | publishFailed
  deriving DecidableEq

/-- The `try` body of `_publish_message`: lazily (re)connect — `connect`
re-raises on failure — then `basic_publish` the serialized message with the
persistent-delivery flag. -/
def publishMessageBody (connOpen : Bool) (env : TransportEnv) :
    Except TransportErr Unit :=
  if !connOpen && !env.connectSucceeds then .error .connectFailed
  else if !env.publishSucceeds then .error .publishFailed
  else .ok ()

/-- `_publish_message`: the `except` branch catches any transport exception,
logs it and returns `False`; the successful path returns `True`. -/
def publishMessage (connOpen : Bool) (env : TransportEnv) : Bool :=
  match publishMessageBody connOpen env with
  | .ok _ => true
  | .error _ => false

/-- The message's payload, as the callback extracts it
(`message.get('payload', {})`). -/
def payloadOf (m : PyVal) : PyVal :=
  match m with
  | .dict msg => msg.getD "payload" (.dict .nil)
  | _ => .none

/-- `v.get(k)` when `v` is a dict; `None` otherwise (a shorthand for stating
properties of nested lookups). -/
def pyGetKey (v : PyVal) (k : String) : PyVal :=
  match v with
  | .dict d => d.get k
  | _ => .none

/-- A stored row with `event_id = "evt-1"`, for the C1 duplicate-insert run. -/
def c1StoredRow : AuditRow :=
  { id := 1, event_type := "share.issued", event_id := "evt-1"
    user_id := .str "u1", user_email := .none, user_role := .none
    resource_type := .none, resource_id := .none
    action := .str "create", description := .none
    event_data := .dict .nil, previous_data := .none
    created_at := 100, processed_at := .none, status := "processed" }

/-- A `create_event` input redelivering `event_id = "evt-1"`. -/
def c1Input : CreateEventInput :=
  { event_id := some "evt-1", event_type := "share.issued"
    user_id := .str "u1", user_email := .none, user_role := .none
    resource_type := .none, resource_id := .none
    action := .str "create", description := .none
    event_data := .dict .nil, previous_data := .none
    processed_at := .none, status := "processed" }

/-- An in-process event redelivering id `"evt-1"`. -/
def c1Event : Event :=
  { id := "evt-1", type := .share_issued
    payload := .cons "user_id" (.str "u1") .nil
    metadata := .nil, timestamp := 100, source := .none }

/-! ## Theorems -/

mutual
theorem convert_decimalFree : ∀ v, decimalFree (convert_decimal_to_float v) = true
  | .none => rfl
  | .bool _ => rfl
  | .int _ => rfl
  | .decimal _ => rfl
  | .float _ => rfl
  | .str _ => rfl
  | .dict kvs => by
      simp only [convert_decimal_to_float, decimalFree]
      exact convertDict_decimalFree kvs
  | .list xs => by
      simp only [convert_decimal_to_float, decimalFree]
      exact convertList_decimalFree xs

theorem convertDict_decimalFree : ∀ kvs, decimalFreeDict (convertDict kvs) = true
  | .nil => rfl
  | .cons k v rest => by
      simp only [convertDict, decimalFreeDict, Bool.and_eq_true]
      exact ⟨convert_decimalFree v, convertDict_decimalFree rest⟩

theorem convertList_decimalFree : ∀ xs, decimalFreeList (convertList xs) = true
  | .nil => rfl
  | .cons v rest => by
      simp only [convertList, decimalFreeList, Bool.and_eq_true]
      exact ⟨convert_decimalFree v, convertList_decimalFree rest⟩
end

/-- Claim C9: `convert_decimal_to_float` converts every `Decimal` to a float,
recursively through arbitrarily nested dicts and lists (the result is
decimal-free), leaves every non-`Decimal` leaf unchanged, and in particular
maps the payload `{"shares": 100, "price": Decimal("10.5")}` to
`{"shares": 100, "price": 10.5}` with `price` a float. -/
theorem C9_decimal_normalization :
    (∀ v, decimalFree (convert_decimal_to_float v) = true)
    ∧ (convert_decimal_to_float .none = .none)
    ∧ (∀ b, convert_decimal_to_float (.bool b) = .bool b)
    ∧ (∀ i, convert_decimal_to_float (.int i) = .int i)
    ∧ (∀ q, convert_decimal_to_float (.float q) = .float q)
    ∧ (∀ s, convert_decimal_to_float (.str s) = .str s)
    ∧ (∀ q, convert_decimal_to_float (.decimal q) = .float q)
    ∧ convert_decimal_to_float
        (.dict (.cons "shares" (.int 100)
          (.cons "price" (.decimal (21/2 : ℚ)) .nil)))
      = .dict (.cons "shares" (.int 100)
          (.cons "price" (.float (21/2 : ℚ)) .nil))
    ∧ convert_decimal_to_float
        (.dict (.cons "lots" (.list (.cons (.decimal (3/4 : ℚ))
          (.cons (.dict (.cons "fee" (.decimal 2) .nil)) .nil)))
          .nil))
      = .dict (.cons "lots" (.list (.cons (.float (3/4 : ℚ))
          (.cons (.dict (.cons "fee" (.float 2) .nil)) .nil)))
          .nil) :=
  ⟨convert_decimalFree, rfl, fun _ => rfl, fun _ => rfl, fun _ => rfl,
   fun _ => rfl, fun _ => rfl, rfl, rfl⟩

/-! ### Event bus dispatch (C4) -/

theorem registerAll_sync (subs : List Sub) (b : Bus) (t : EventType) :
    (registerAll b subs).sync t = b.sync t ++ syncRegistered t subs := by
  induction subs generalizing b with
  | nil => simp [registerAll, syncRegistered]
  | cons s rest ih =>
    simp only [registerAll, List.foldl_cons] at *
    rw [ih]
    by_cases ha : s.isAsync
    · simp [subscribe, ha, syncRegistered]
    · by_cases hk : s.kind = t
      · simp [subscribe, ha, hk, syncRegistered]
      · simp [subscribe, ha, hk, syncRegistered, Ne.symm hk]

theorem handleSyncLoop_eq_map (hbeh : Nat → Event → HandlerRes) (e : Event)
    (l : List Nat) : handleSyncLoop hbeh e l = l.map fun h => (h, hbeh h e) := by
  induction l with
  | nil => rfl
  | cons h rest ih => simp [handleSyncLoop, ih]

/-- Claim C4: for a bus built by a sequence of `subscribe` calls, `publish`
invokes exactly the synchronous handlers registered for the event's kind,
each exactly once, in registration order — the dispatch trace pairs each
registered handler id with its own call's outcome, for *every* handler
behaviour, including behaviours in which earlier handlers raise — and
`publish` returns `True` to its caller (no handler failure propagates). -/
theorem C4_sync_dispatch (hbeh : Nat → Event → HandlerRes) (subs : List Sub)
    (e : Event) :
    (publish hbeh (registerAll emptyBus subs) e).2
        = (syncRegistered e.type subs).map (fun h => (h, hbeh h e))
    ∧ (publish hbeh (registerAll emptyBus subs) e).1 = true := by
  constructor
  · simp only [publish, handleSync, registerAll_sync, emptyBus, List.nil_append]
    exact handleSyncLoop_eq_map hbeh e _
  · rfl

/-! ### Durable publisher transport failures (C8) -/

/-- Claim C8: `_publish_message` returns `False` exactly on a transport
failure (the lazy connect fails, or the channel publish raises), and returns
`True` exactly when the transport succeeds — it is a total Boolean function
of the transport outcome, so no transport exception ever propagates to the
calling business action. -/
theorem C8_publish_never_raises (connOpen : Bool) (env : TransportEnv) :
    (publishMessage connOpen env = false
        ↔ ∃ err, publishMessageBody connOpen env = .error err)
    ∧ (publishMessage connOpen env = true
        ↔ publishMessageBody connOpen env = .ok ()) := by
  constructor
  · constructor
    · intro h
      cases hb : publishMessageBody connOpen env with
      | ok u => simp [publishMessage, hb] at h
      | error err => exact ⟨err, rfl⟩
    · rintro ⟨err, hb⟩
      simp [publishMessage, hb]
  · constructor
    · intro h
      cases hb : publishMessageBody connOpen env with
      | ok u => cases u; rfl
      | error err => simp [publishMessage, hb] at h
    · intro hb
      simp [publishMessage, hb]

/-! ### Broker consumer acknowledgement (C2, C5, C6, C7) -/

/-- Claim C2, evaluated on the code: for a delivery whose body fails to
decode as JSON (e.g. the body `b"invalid json"`), the callback's blanket
`except` issues a negative acknowledgement **with requeue** — it does not
acknowledge and drop.  (The claim, the spec and the repository's own test
`test_callback_json_decode_error` all expect `basic_ack`; the code diverges.) -/
theorem C2_decode_failure_code_eval :
    consumerCallback (.error "Expecting value: line 1 column 1 (char 0)")
        = [ChOp.nackRequeue]
    ∧ consumerCallback (.error "Expecting value: line 1 column 1 (char 0)")
        ≠ [ChOp.ack] :=
  ⟨rfl, by decide⟩

/-- Claim C6: a successfully decoded message whose top-level `event_type` is
not a domain-event value, not `"notification"` and not `"system"` is
acknowledged — never negatively acknowledged or requeued — whatever the three
category handlers do. -/
theorem C6_unknown_event_type_acked
    (ah nh sh : PyVal → PyVal → Except String Bool) (msg : PyDict)
    (h1 : isKnownEventType (msg.get "event_type") = false)
    (h2 : msg.get "event_type" ≠ .str "notification")
    (h3 : msg.get "event_type" ≠ .str "system") :
    callback ah nh sh (.ok (.dict msg)) = [ChOp.ack] := by
  simp [callback, callbackRoute, categoryOf, h1, h2, h3]

/-- Witness for C6 at the concrete message
`{"event_id": "test-event-123", "event_type": "unknown_event", "payload": {}}`
delivered to the consumer's own handlers. -/
theorem C6_witness :
    callback auditHandle notificationHandle systemHandle
        (.ok (.dict (.cons "event_id" (.str "test-event-123")
          (.cons "event_type" (.str "unknown_event")
            (.cons "payload" (.dict .nil) .nil)))))
      = [ChOp.ack] :=
  C6_unknown_event_type_acked auditHandle notificationHandle systemHandle
    _ (by decide) (by decide) (by decide)

/-- Claim C7: for a successfully decoded message routed to one of the three
categories, the callback acknowledges **iff** the dispatched category handler
returns `True`; when the handler returns `False` or raises, the callback
issues exactly one negative acknowledgement with requeue (the operation list
is `[nackRequeue]`). -/
theorem C7_ack_iff_handler_true
    (ah nh sh : PyVal → PyVal → Except String Bool) (msg : PyDict)
    (c : Category) (hc : categoryOf (msg.get "event_type") = some c) :
    (callback ah nh sh (.ok (.dict msg)) = [ChOp.ack]
        ↔ handlerFor c ah nh sh (msg.getD "payload" (.dict .nil))
            (msg.get "event_id") = .ok true)
    ∧ ((handlerFor c ah nh sh (msg.getD "payload" (.dict .nil))
            (msg.get "event_id") = .ok false
        ∨ ∃ s, handlerFor c ah nh sh (msg.getD "payload" (.dict .nil))
            (msg.get "event_id") = .error s)
        → callback ah nh sh (.ok (.dict msg)) = [ChOp.nackRequeue]) := by
  constructor
  · constructor
    · intro h
      cases hr : handlerFor c ah nh sh (msg.getD "payload" (.dict .nil))
          (msg.get "event_id") with
      | ok b =>
        cases b with
        | true => rfl
        | false => simp [callback, callbackRoute, hc, hr] at h
      | error s => simp [callback, callbackRoute, hc, hr] at h
    · intro hr
      simp [callback, callbackRoute, hc, hr]
  · rintro (hr | ⟨s, hr⟩) <;> simp [callback, callbackRoute, hc, hr]

/-- Witness for C7: the concrete message
`{"event_id": "test-event-123", "event_type": "user_login", "payload":
{"event_type": "user_login"}}` is routed to the audit handler, which returns
`True`, and the delivery is acknowledged. -/
theorem C7_witness :
    callback auditHandle notificationHandle systemHandle
        (.ok (.dict (.cons "event_id" (.str "test-event-123")
          (.cons "event_type" (.str "user_login")
            (.cons "payload" (.dict (.cons "event_type" (.str "user_login") .nil))
              .nil)))))
      = [ChOp.ack] :=
  (C7_ack_iff_handler_true auditHandle notificationHandle systemHandle
      _ Category.audit (by decide)).1.mpr rfl

/-- Claim C5: every wire message built by the nine
`AuditEventPublisher.publish_*` constructors carries its `event_type` only at
the top level (the payload has none), so the consumer routes it to
`AuditEventHandler.handle`, which dispatches on the **payload's**
`event_type` key, finds none, returns `False` — and the delivery is
negatively acknowledged with requeue. -/
theorem C5_published_audit_messages_requeued :
    (∀ uuid ts a b c ip ua,
      pyGetKey (publishUserLoginMsg uuid ts a b c ip ua) "event_type"
          = .str "user_login"
      ∧ pyGetKey (payloadOf (publishUserLoginMsg uuid ts a b c ip ua)) "event_type"
          = .none
      ∧ auditHandle (payloadOf (publishUserLoginMsg uuid ts a b c ip ua))
          (pyGetKey (publishUserLoginMsg uuid ts a b c ip ua) "event_id") = .ok false
      ∧ consumerCallback (.ok (publishUserLoginMsg uuid ts a b c ip ua))
          = [ChOp.nackRequeue])
    ∧ (∀ uuid ts a b sd,
      pyGetKey (payloadOf (publishUserLogoutMsg uuid ts a b sd)) "event_type" = .none
      ∧ consumerCallback (.ok (publishUserLogoutMsg uuid ts a b sd))
          = [ChOp.nackRequeue])
    ∧ (∀ uuid ts a sd,
      pyGetKey (payloadOf (publishShareholderCreatedMsg uuid ts a sd)) "event_type"
          = .none
      ∧ consumerCallback (.ok (publishShareholderCreatedMsg uuid ts a sd))
          = [ChOp.nackRequeue])
    ∧ (∀ uuid ts a b pd nd,
      pyGetKey (payloadOf (publishShareholderUpdatedMsg uuid ts a b pd nd)) "event_type"
          = .none
      ∧ consumerCallback (.ok (publishShareholderUpdatedMsg uuid ts a b pd nd))
          = [ChOp.nackRequeue])
    ∧ (∀ uuid ts a b sd,
      pyGetKey (payloadOf (publishShareIssuedMsg uuid ts a b sd)) "event_type" = .none
      ∧ consumerCallback (.ok (publishShareIssuedMsg uuid ts a b sd))
          = [ChOp.nackRequeue])
    ∧ (∀ uuid ts a b cp,
      pyGetKey (payloadOf (publishCertificateGeneratedMsg uuid ts a b cp)) "event_type"
          = .none
      ∧ consumerCallback (.ok (publishCertificateGeneratedMsg uuid ts a b cp))
          = [ChOp.nackRequeue])
    ∧ (∀ uuid ts a b o n,
      pyGetKey (payloadOf (publishPermissionChangedMsg uuid ts a b o n)) "event_type"
          = .none
      ∧ consumerCallback (.ok (publishPermissionChangedMsg uuid ts a b o n))
          = [ChOp.nackRequeue])
    ∧ (∀ uuid ts a b c rc,
      pyGetKey (payloadOf (publishDataExportMsg uuid ts a b c rc)) "event_type" = .none
      ∧ consumerCallback (.ok (publishDataExportMsg uuid ts a b c rc))
          = [ChOp.nackRequeue])
    ∧ (∀ uuid ts a b st,
      pyGetKey (payloadOf (publishSystemErrorMsg uuid ts a b st)) "event_type" = .none
      ∧ consumerCallback (.ok (publishSystemErrorMsg uuid ts a b st))
          = [ChOp.nackRequeue]) :=
  ⟨fun _ _ _ _ _ _ _ => ⟨rfl, rfl, rfl, rfl⟩,
   fun _ _ _ _ _ => ⟨rfl, rfl⟩,
   fun _ _ _ _ => ⟨rfl, rfl⟩,
   fun _ _ _ _ _ _ => ⟨rfl, rfl⟩,
   fun _ _ _ _ _ => ⟨rfl, rfl⟩,
   fun _ _ _ _ _ => ⟨rfl, rfl⟩,
   fun _ _ _ _ _ _ => ⟨rfl, rfl⟩,
   fun _ _ _ _ _ _ => ⟨rfl, rfl⟩,
   fun _ _ _ _ _ => ⟨rfl, rfl⟩⟩

/-! ### Actor/resource extraction (C3) and idempotent persistence (C1) -/

/-- Claim C3, evaluated on the code: for an event whose payload holds
`user_id = "u1"` but whose metadata is the empty dict (the model's default),
the constructed record stores `None` for `user_id` — not the payload value.
The conditional expression
`payload.get("user_id") or metadata.get("user_id") if metadata else None`
parses as `(... or ...) if metadata else None`, so empty metadata discards
the payload value; the spec-worded fallback chain (`specActorField`) would
store `"u1"`. -/
theorem C3_empty_metadata_code_eval :
    (buildAuditRow
        ⟨"evt-9", .share_issued, .cons "user_id" (.str "u1") .nil, .nil, 0, .none⟩
        1 0 .none).user_id = PyVal.none
    ∧ (PyDict.cons "user_id" (.str "u1") .nil).get "user_id" = .str "u1"
    ∧ specActorField (.cons "user_id" (.str "u1") .nil) .nil "user_id"
        = .str "u1" :=
  ⟨rfl, rfl, rfl⟩

/-- Claim C1, counterexample: with a row already stored under
`event_id = "evt-1"`, a second `create_event` for the same `event_id` is
**not** a safe no-op towards its caller — it raises `AuditEventError`
(modelled as `Except.error`), refuting "not surfaced as an error to the
caller".  (The store is indeed left unchanged.) -/
theorem C1_counterexample :
    (create_event [c1StoredRow] c1Input "fresh-uuid" 2 101).2
        = .error "Création échouée: IntegrityError"
    ∧ (create_event [c1StoredRow] c1Input "fresh-uuid" 2 101).1
        = [c1StoredRow] :=
  ⟨rfl, rfl⟩

/-- Claim C1 as amended: a duplicate insert never creates a second row —
both insertion paths leave the store exactly as it was, so exactly one row
with that `event_id` remains — but the conflict **is** surfaced:
`AuditEventService.create_event` raises `AuditEventError`, and
`handle_audit_persistence` catches the `IntegrityError` and reports failure
by returning `False` instead of success. -/
theorem C1_duplicate_insert_amended
    (db : List AuditRow) (ed : CreateEventInput) (uuid : String)
    (rowId createdAt : Int) (e : Event) (rid cat : Int) (ts : PyVal)
    (h1 : db.any (fun r => r.event_id = effectiveEventId ed uuid) = true)
    (h2 : db.any (fun r => r.event_id = e.id) = true) :
    (create_event db ed uuid rowId createdAt).1 = db
    ∧ (create_event db ed uuid rowId createdAt).2
        = .error "Création échouée: IntegrityError"
    ∧ handle_audit_persistence db e rid cat ts = (db, false) := by
  refine ⟨?_, ?_, ?_⟩ <;>
    simp [create_event, insertAuditRow, handle_audit_persistence, buildAuditRow,
      h1, h2]

/-- Witness for C1's amended claim at a concrete duplicate redelivery of
`event_id = "evt-1"`. -/
theorem C1_amended_witness :
    (create_event [c1StoredRow] c1Input "fresh-uuid" 2 101).1 = [c1StoredRow]
    ∧ (create_event [c1StoredRow] c1Input "fresh-uuid" 2 101).2
        = .error "Création échouée: IntegrityError"
    ∧ handle_audit_persistence [c1StoredRow] c1Event 2 101 .none
        = ([c1StoredRow], false) :=
  C1_duplicate_insert_amended [c1StoredRow] c1Input "fresh-uuid" 2 101 c1Event
    2 101 .none (by decide) (by decide)

/-! ### Audit query listing (C10) -/

/-- Descending `created_at` sortedness of the insertion sort `get_events`
performs under the default ordering arguments. -/
theorem insertionSort_created_at_desc (l : List AuditRow) :
    List.Pairwise (fun a b : AuditRow => b.created_at ≤ a.created_at)
      (List.insertionSort
        (fun a b : AuditRow => colLeB Col.created_at true a b = true) l) := by
  have htot : ∀ a b : AuditRow,
      colLeB Col.created_at true a b = true ∨ colLeB Col.created_at true b a = true := by
    intro a b
    simp only [colLeB, colVal, pyLe, if_true, decide_eq_true_eq]
    omega
  have htrans : ∀ a b c : AuditRow,
      colLeB Col.created_at true a b = true → colLeB Col.created_at true b c = true →
      colLeB Col.created_at true a c = true := by
    intro a b c hab hbc
    simp only [colLeB, colVal, pyLe, if_true, decide_eq_true_eq] at *
    omega
  haveI : IsTotal AuditRow (fun a b => colLeB Col.created_at true a b = true) :=
    ⟨htot⟩
  haveI : IsTrans AuditRow (fun a b => colLeB Col.created_at true a b = true) :=
    ⟨htrans⟩
  have hs := List.sorted_insertionSort
    (fun a b : AuditRow => colLeB Col.created_at true a b = true) l
  refine hs.imp ?_
  intro a b h
  simpa only [colLeB, colVal, pyLe, if_true, decide_eq_true_eq] using h

/-- The only exception the filter-building loop raises is the `.in_`
`AttributeError` of a list value against a non-column attribute. -/
theorem condOfPair_error (k : String) (v : PyVal) (e : String)
    (h : condOfPair k v = .error e) :
    e = "AttributeError: object has no attribute in_" := by
  unfold condOfPair at h
  rcases hg : getattrAuditEvent k with c | _ | _ <;> simp only [hg] at h
  · by_cases hv : v = PyVal.none
    · rw [if_pos hv] at h; exact Except.noConfusion h
    · rw [if_neg hv] at h; cases v <;> simp_all
  · by_cases hv : v = PyVal.none
    · rw [if_pos hv] at h; exact Except.noConfusion h
    · rw [if_neg hv] at h; cases v <;> simp_all
  · exact Except.noConfusion h

/-- The error `buildConds` propagates is that same `AttributeError`. -/
theorem buildConds_error (filters : List (String × PyVal)) (e : String)
    (hb : buildConds filters = .error e) :
    e = "AttributeError: object has no attribute in_" := by
  induction filters with
  | nil => cases hb
  | cons kv rest ih =>
    obtain ⟨k, v⟩ := kv
    rw [buildConds] at hb
    cases hc : condOfPair k v with
    | error e2 =>
      simp only [hc] at hb
      cases hb
      exact condOfPair_error k v _ hc
    | ok c =>
      simp only [hc] at hb
      cases hb2 : buildConds rest with
      | error e2 =>
        simp only [hb2] at hb
        cases hb
        exact ih hb2
      | ok cs =>
        simp only [hb2] at hb
        cases c <;> simp at hb

/-- Claim C10, counterexample: `"metadata"` names no column of `AuditEvent`
(`resolveCol` finds none), yet `get_events` ordered by it does **not**
silently fall back to `created_at` — `getattr` finds the declarative
`MetaData` attribute and the call fails — while the same call ordered by
`created_at` succeeds. -/
theorem C10_counterexample :
    resolveCol "metadata" = none
    ∧ get_events [] [] 0 100 "metadata" true
        = .error "ArgumentError: ORDER BY expected a column expression"
    ∧ get_events [] [] 0 100 "created_at" true = .ok [] :=
  ⟨rfl, rfl, rfl⟩

/-- Claim C10 as amended: every **successful** `get_events` call is
paginated — at most `limit` rows, and exactly the `skip`-th window of the
`skip+limit`-prefixed result — and under the default ordering arguments
(`order_by="created_at"`, `order_desc=True`) the rows come back newest-first
(descending `created_at`).  The silent fallback to `created_at` happens
exactly for an `order_by` that names no attribute of the `AuditEvent` class
at all (`getattr`'s default fires); an `order_by` naming a non-column class
attribute (`metadata`, `registry`, `__tablename__`, `__repr__`, …) is found
by `getattr` and makes the call fail instead of falling back. -/
theorem C10_get_events_paginated_ordered
    (rs : List AuditRow) (filters : List (String × PyVal))
    (skip limit : Nat) (name : String) (d : Bool) :
    (∀ out, get_events rs filters skip limit name d = .ok out →
      out.length ≤ limit)
    ∧ (∀ out, get_events rs filters skip limit "created_at" true = .ok out →
      List.Pairwise (fun a b => b.created_at ≤ a.created_at) out)
    ∧ (∀ out, get_events rs filters 0 (skip + limit) name d = .ok out →
      get_events rs filters skip limit name d = .ok (out.drop skip))
    ∧ (getattrAuditEvent name = .absent →
      get_events rs filters skip limit name d
        = get_events rs filters skip limit "created_at" d)
    ∧ (getattrAuditEvent name = .nonColumn →
      get_events rs filters skip limit name d
        = .error "AttributeError: object has no attribute in_"
      ∨ get_events rs filters skip limit name d
        = .error "ArgumentError: ORDER BY expected a column expression") := by
  refine ⟨?_, ?_, ?_, ?_, ?_⟩
  · intro out h
    cases hb : buildConds filters with
    | error e => simp [get_events, hb] at h
    | ok conds =>
      cases ho : orderColE name with
      | error e => simp [get_events, hb, ho] at h
      | ok oc =>
        simp only [get_events, hb, ho, Except.ok.injEq] at h
        subst h
        simp only [List.length_take]
        exact Nat.min_le_left _ _
  · intro out h
    cases hb : buildConds filters with
    | error e => simp [get_events, hb] at h
    | ok conds =>
      have ho : orderColE "created_at" = .ok Col.created_at := rfl
      simp only [get_events, hb, ho, Except.ok.injEq] at h
      subst h
      exact (insertionSort_created_at_desc _).sublist
        ((List.take_sublist _ _).trans (List.drop_sublist _ _))
  · intro out h
    cases hb : buildConds filters with
    | error e => simp [get_events, hb] at h
    | ok conds =>
      cases ho : orderColE name with
      | error e => simp [get_events, hb, ho] at h
      | ok oc =>
        simp only [get_events, hb, ho, Except.ok.injEq] at h ⊢
        subst h
        rw [List.drop_zero, List.take_drop]
  · intro h
    have hl : orderColE name = .ok Col.created_at := by
      simp [orderColE, h]
    have hr : orderColE "created_at" = .ok Col.created_at := rfl
    cases hb : buildConds filters with
    | error e => simp [get_events, hb]
    | ok conds => simp only [get_events, hb, hl, hr]
  · intro h
    cases hb : buildConds filters with
    | error e =>
      left
      rw [buildConds_error filters e hb] at hb
      simp [get_events, hb]
    | ok conds =>
      right
      have ho : orderColE name
          = .error "ArgumentError: ORDER BY expected a column expression" := by
        simp [orderColE, h]
      simp [get_events, hb, ho]

end CorporateOs
